import Mathlib

/-!
Verification of the ai-planner orchestration layer: a shallow embedding of
the NextAuth token-refresh callbacks, the chat-request validator and prompt
composer, and the calendar gateway handlers, together with theorems about the
claims of the specification.
-/

namespace AIPlanner

/- ## Token manager (`src/app/api/auth/[...nextauth]/route.ts`)

`JWT` tokens carry the delegated-access credential.  `expiresAt` is a
millisecond epoch timestamp; all fields are optional, matching the NextAuth
`JWT` record with the module augmentation of `next-auth.d.ts`. -/

structure JWTToken where
  accessToken : Option String := none
  expiresAt : Option Int := none
  refreshToken : Option String := none
  user : Option String := none
  error : Option String := none
  deriving Repr, DecidableEq

/-- Outcome of the single `fetch` to the identity provider's token endpoint:
`ok` is a 2xx response body (`access_token`, `expires_in`, optional
`refresh_token`); `httpError` is a non-ok response (the code `throw`s the
parsed payload); `transportError` is a rejected `fetch`. -/
inductive RefreshResponse where
  | ok (access_token : String) (expires_in : Int) (refresh_token : Option String)
  | httpError
  | transportError
  deriving Repr, DecidableEq

def refreshErrorFlag : String := "RefreshAccessTokenError"

/-- `refreshAccessToken` from the nextauth route.  A missing refresh token
throws before the fetch; a non-ok response or transport failure lands in the
`catch` block, which returns the old token with the error flag spread in. -/
def refreshAccessToken (now : Int) (resp : RefreshResponse) (token : JWTToken) : JWTToken :=
  match token.refreshToken with
  | none => { token with error := some refreshErrorFlag }
  | some rt =>
    match resp with
    | .ok a ei rt2 =>
        { token with
            accessToken := some a
            expiresAt := some (now + ei * 1000)
            refreshToken := some (rt2.getD rt) }
    | .httpError => { token with error := some refreshErrorFlag }
    | .transportError => { token with error := some refreshErrorFlag }

/-- Number of requests `refreshAccessToken` issues to the identity provider:
the guard `if (!token.refreshToken) throw` runs before the single `fetch`. -/
def refreshFetchCount (token : JWTToken) : Nat :=
  match token.refreshToken with
  | none => 0
  | some _ => 1

/-- Body of the refresh request (the env-supplied client id/secret omitted):
`grant_type=refresh_token` with the stored refresh token. -/
def refreshRequestParams (token : JWTToken) : Option (List (String × String)) :=
  match token.refreshToken with
  | none => none
  | some rt => some [("grant_type", "refresh_token"), ("refresh_token", rt)]

/-- The `account` object NextAuth passes on initial sign-in
(`expires_at` is in seconds). -/
structure OAuthAccount where
  access_token : Option String := none
  expires_at : Option Int := none
  refresh_token : Option String := none
  deriving Repr, DecidableEq

/-- The guard `token.expiresAt && Date.now() < token.expiresAt`:
`expiresAt` must be present, truthy (nonzero) and in the future. -/
def expiryValid (now : Int) (token : JWTToken) : Bool :=
  match token.expiresAt with
  | some e => !(e == 0) && decide (now < e)
  | none => false

/-- The `jwt` callback: initial sign-in builds a fresh token from the
account; otherwise a still-valid token is returned unchanged and an expired
one goes through `refreshAccessToken`. -/
def jwt (now : Int) (resp : RefreshResponse) (token : JWTToken)
    (account : Option OAuthAccount) (user : Option String) : JWTToken :=
  match account, user with
  | some a, some u =>
      { accessToken := a.access_token
        expiresAt := some (a.expires_at.getD 0 * 1000)
        refreshToken := a.refresh_token
        user := some u
        error := none }
  | _, _ =>
      if expiryValid now token then token
      else refreshAccessToken now resp token

/-- Identity-provider requests made by one `jwt` callback invocation. -/
def jwtRefreshCalls (now : Int) (token : JWTToken)
    (account : Option OAuthAccount) (user : Option String) : Nat :=
  match account, user with
  | some _, some _ => 0
  | _, _ => if expiryValid now token then 0 else refreshFetchCount token

/-- The session object exposed to callers (fields set by the `session`
callback). -/
structure NASession where
  accessToken : Option String := none
  error : Option String := none
  deriving Repr, DecidableEq

/-- The `session` callback: copies `accessToken` onto the session and, when
`token.error` is truthy, copies the error flag as well. -/
def sessionCallback (s : NASession) (token : JWTToken) : NASession :=
  let s1 : NASession := { s with accessToken := token.accessToken }
  match token.error with
  | some e => if e == "" then s1 else { s1 with error := some e }
  | none => s1

/-- Once the error flag is set, every non-sign-in `jwt` transition keeps it:
the valid-expiry branch returns the token as is, and both branches of
`refreshAccessToken` spread the old token (success never clears `error`). -/
lemma jwt_keeps_refresh_error (now : Int) (resp : RefreshResponse) (token : JWTToken)
    (h : token.error = some refreshErrorFlag) :
    (jwt now resp token none none).error = some refreshErrorFlag := by
  unfold jwt
  by_cases hv : expiryValid now token
  · simp [hv, h]
  · simp only [hv, if_false, Bool.false_eq_true]
    unfold refreshAccessToken
    cases hrt : token.refreshToken with
    | none => simp
    | some rt => cases resp <;> simp [h]

/-- C1: for a stored credential with a refresh token, the `jwt` callback
returns the credential unchanged (zero refresh calls) while the recorded
expiry is in the future; once the expiry has passed it makes exactly one
refresh call carrying the stored refresh token, and a successful response
yields the new access token, expiry `now` plus the provider-reported
lifetime (hence in the future when the lifetime is positive), and the old
refresh token unless the provider sent a new one. -/
theorem c1_token_refresh (now e : Int) (tok : JWTToken) (rt : String)
    (hrt : tok.refreshToken = some rt) (hexp : tok.expiresAt = some e)
    (hnow : 0 ≤ now) :
    (now < e →
      (∀ resp, jwt now resp tok none none = tok) ∧
      jwtRefreshCalls now tok none none = 0) ∧
    (e ≤ now →
      jwtRefreshCalls now tok none none = 1 ∧
      refreshRequestParams tok =
        some [("grant_type", "refresh_token"), ("refresh_token", rt)] ∧
      ∀ (a : String) (ei : Int) (rt2 : Option String),
        (jwt now (.ok a ei rt2) tok none none).accessToken = some a ∧
        (jwt now (.ok a ei rt2) tok none none).expiresAt = some (now + ei * 1000) ∧
        (0 < ei → now < now + ei * 1000) ∧
        (jwt now (.ok a ei rt2) tok none none).refreshToken = some (rt2.getD rt)) := by
  constructor
  · intro hfut
    have hv : expiryValid now tok = true := by
      unfold expiryValid
      rw [hexp]
      have he : ¬ (e = 0) := by omega
      simp [he, hfut]
    constructor
    · intro resp
      unfold jwt
      simp [hv]
    · unfold jwtRefreshCalls
      simp [hv]
  · intro hpast
    have hv : expiryValid now tok = false := by
      unfold expiryValid
      rw [hexp]
      by_cases he : e = 0
      · simp [he]
      · simp [he]
        omega
    refine ⟨?_, ?_, ?_⟩
    · unfold jwtRefreshCalls refreshFetchCount
      simp [hv, hrt]
    · unfold refreshRequestParams
      rw [hrt]
    · intro a ei rt2
      have hj : jwt now (.ok a ei rt2) tok none none =
          refreshAccessToken now (.ok a ei rt2) tok := by
        unfold jwt
        simp [hv]
      rw [hj]
      unfold refreshAccessToken
      rw [hrt]
      refine ⟨rfl, rfl, ?_, rfl⟩
      intro hei
      omega

/-- A concrete stored credential whose expiry (1000 ms epoch) has passed. -/
def sampleExpiredTok : JWTToken :=
  { accessToken := some "oldAT"
    expiresAt := some 1000
    refreshToken := some "RT"
    user := some "u" }

/-- `sampleExpiredTok` after a failed refresh marked it with the error flag. -/
def sampleFlaggedTok : JWTToken :=
  { sampleExpiredTok with error := some refreshErrorFlag }

/-- Closed witness for `c1_token_refresh` at a concrete expired credential. -/
theorem c1_token_refresh_witness :
    sampleExpiredTok.refreshToken = some "RT" ∧
    sampleExpiredTok.expiresAt = some 1000 ∧
    (0 : Int) ≤ 2000 ∧
    (((2000 : Int) < 1000 →
      (∀ resp, jwt 2000 resp sampleExpiredTok none none = sampleExpiredTok) ∧
      jwtRefreshCalls 2000 sampleExpiredTok none none = 0) ∧
    ((1000 : Int) ≤ 2000 →
      jwtRefreshCalls 2000 sampleExpiredTok none none = 1 ∧
      refreshRequestParams sampleExpiredTok =
        some [("grant_type", "refresh_token"), ("refresh_token", "RT")] ∧
      ∀ (a : String) (ei : Int) (rt2 : Option String),
        (jwt 2000 (.ok a ei rt2) sampleExpiredTok none none).accessToken = some a ∧
        (jwt 2000 (.ok a ei rt2) sampleExpiredTok none none).expiresAt
          = some (2000 + ei * 1000) ∧
        (0 < ei → (2000 : Int) < 2000 + ei * 1000) ∧
        (jwt 2000 (.ok a ei rt2) sampleExpiredTok none none).refreshToken
          = some (rt2.getD "RT"))) :=
  ⟨rfl, rfl, by decide,
    c1_token_refresh 2000 1000 sampleExpiredTok "RT" rfl rfl (by decide)⟩

/-- C2: when an expired credential's refresh fails (missing refresh token,
provider error payload, or transport error), the `jwt` callback returns the
old credential with the persistent error flag; the `session` callback
surfaces the flag to the caller; at most one refresh request is made within
the request; and every later non-sign-in credential fetch keeps surfacing
the flag. -/
theorem c2_refresh_failure (now : Int) (tok : JWTToken) (resp : RefreshResponse)
    (hexp : expiryValid now tok = false)
    (hfail : tok.refreshToken = none ∨ resp = .httpError ∨ resp = .transportError) :
    (jwt now resp tok none none).error = some refreshErrorFlag ∧
    (jwt now resp tok none none).accessToken = tok.accessToken ∧
    (jwt now resp tok none none).expiresAt = tok.expiresAt ∧
    (jwt now resp tok none none).refreshToken = tok.refreshToken ∧
    (∀ s, (sessionCallback s (jwt now resp tok none none)).error
        = some refreshErrorFlag) ∧
    jwtRefreshCalls now tok none none ≤ 1 ∧
    (∀ (now2 : Int) (resp2 : RefreshResponse) (s : NASession),
      (sessionCallback s (jwt now2 resp2 (jwt now resp tok none none) none none)).error
        = some refreshErrorFlag) := by
  have hj : jwt now resp tok none none = refreshAccessToken now resp tok := by
    unfold jwt
    simp [hexp]
  have herr : (jwt now resp tok none none).error = some refreshErrorFlag ∧
      (jwt now resp tok none none).accessToken = tok.accessToken ∧
      (jwt now resp tok none none).expiresAt = tok.expiresAt ∧
      (jwt now resp tok none none).refreshToken = tok.refreshToken := by
    rw [hj]
    unfold refreshAccessToken
    rcases hfail with hnone | hr | hr
    · rw [hnone]
      exact ⟨rfl, rfl, rfl, rfl⟩
    · subst hr
      cases hrt : tok.refreshToken <;> exact ⟨rfl, rfl, rfl, rfl⟩
    · subst hr
      cases hrt : tok.refreshToken <;> exact ⟨rfl, rfl, rfl, rfl⟩
  refine ⟨herr.1, herr.2.1, herr.2.2.1, herr.2.2.2, ?_, ?_, ?_⟩
  · intro s
    unfold sessionCallback
    rw [herr.1]
    simp [refreshErrorFlag]
  · unfold jwtRefreshCalls refreshFetchCount
    cases tok.refreshToken <;> simp [hexp]
  · intro now2 resp2 s
    have h2 := jwt_keeps_refresh_error now2 resp2 (jwt now resp tok none none) herr.1
    unfold sessionCallback
    rw [h2]
    simp [refreshErrorFlag]

/-- Closed witness for `c2_refresh_failure`: a credential expired at
`now = 2000` whose refresh hits a transport error keeps its fields, gains
the error flag, and every later fetch still reports it. -/
theorem c2_refresh_failure_witness :
    expiryValid 2000 sampleExpiredTok = false ∧
    (sampleExpiredTok.refreshToken = none ∨
      RefreshResponse.transportError = RefreshResponse.httpError ∨
      RefreshResponse.transportError = RefreshResponse.transportError) ∧
    ((jwt 2000 .transportError sampleExpiredTok none none).error
        = some refreshErrorFlag ∧
    (jwt 2000 .transportError sampleExpiredTok none none).accessToken
        = sampleExpiredTok.accessToken ∧
    (jwt 2000 .transportError sampleExpiredTok none none).expiresAt
        = sampleExpiredTok.expiresAt ∧
    (jwt 2000 .transportError sampleExpiredTok none none).refreshToken
        = sampleExpiredTok.refreshToken ∧
    (∀ s, (sessionCallback s (jwt 2000 .transportError sampleExpiredTok none none)).error
        = some refreshErrorFlag) ∧
    jwtRefreshCalls 2000 sampleExpiredTok none none ≤ 1 ∧
    (∀ (now2 : Int) (resp2 : RefreshResponse) (s : NASession),
      (sessionCallback s (jwt now2 resp2
          (jwt 2000 .transportError sampleExpiredTok none none) none none)).error
        = some refreshErrorFlag)) :=
  ⟨by decide, Or.inr (Or.inr rfl),
    c2_refresh_failure 2000 sampleExpiredTok .transportError (by decide)
      (Or.inr (Or.inr rfl))⟩

/-- C10: once the error flag is set, every non-sign-in `jwt` transition
preserves it — in particular a later successful refresh spreads the old
token and keeps the flag while updating the access token — and only the
initial-sign-in (account-and-user) branch returns a token without it. -/
theorem c10_error_flag_persistence (now : Int) (resp : RefreshResponse) (tok : JWTToken)
    (herr : tok.error = some refreshErrorFlag) :
    (jwt now resp tok none none).error = some refreshErrorFlag ∧
    (∀ (rt0 a : String) (ei : Int) (rt2 : Option String),
      tok.refreshToken = some rt0 → expiryValid now tok = false →
      (jwt now (.ok a ei rt2) tok none none).accessToken = some a ∧
      (jwt now (.ok a ei rt2) tok none none).error = some refreshErrorFlag) ∧
    (∀ (acc : OAuthAccount) (u : String),
      (jwt now resp tok (some acc) (some u)).error = none) := by
  refine ⟨jwt_keeps_refresh_error now resp tok herr, ?_, ?_⟩
  · intro rt0 a ei rt2 hrt hv
    have hj : jwt now (.ok a ei rt2) tok none none =
        refreshAccessToken now (.ok a ei rt2) tok := by
      unfold jwt
      simp [hv]
    rw [hj]
    unfold refreshAccessToken
    rw [hrt]
    exact ⟨rfl, herr⟩
  · intro acc u
    unfold jwt
    rfl

/-- Closed witness for `c10_error_flag_persistence` at a concrete flagged
token whose refresh succeeds. -/
theorem c10_error_flag_persistence_witness :
    sampleFlaggedTok.error = some refreshErrorFlag ∧
    ((jwt 2000 (.ok "newAT" 3600 none) sampleFlaggedTok none none).error
        = some refreshErrorFlag ∧
    (∀ (rt0 a : String) (ei : Int) (rt2 : Option String),
      sampleFlaggedTok.refreshToken = some rt0 →
      expiryValid 2000 sampleFlaggedTok = false →
      (jwt 2000 (.ok a ei rt2) sampleFlaggedTok none none).accessToken = some a ∧
      (jwt 2000 (.ok a ei rt2) sampleFlaggedTok none none).error
        = some refreshErrorFlag) ∧
    (∀ (acc : OAuthAccount) (u : String),
      (jwt 2000 (.ok "newAT" 3600 none) sampleFlaggedTok (some acc) (some u)).error
        = none)) :=
  ⟨rfl, c10_error_flag_persistence 2000 (.ok "newAT" 3600 none) sampleFlaggedTok rfl⟩

/- ## JSON-like values

Inbound request bodies and provider payloads are `unknown`-typed in the
source and probed with runtime type guards; `JVal` is their embedding. -/

inductive JVal where
  | jnull
  | jbool (b : Bool)
  | jnum (n : Int)
  | jstr (s : String)
  | jarr (xs : List JVal)
  | jobj (fields : List (String × JVal))
  deriving Repr

/-- Property access `v[k]` on an object (first binding wins, as JS object
keys are unique); anything else has no string-keyed fields of interest. -/
def JVal.getField : JVal → String → Option JVal
  | .jobj fs, k => fs.lookup k
  | _, _ => none

/-- The JS `k in v` test for the fields we model. -/
def JVal.hasField (v : JVal) (k : String) : Bool := (v.getField k).isSome

/-- `typeof v === 'object' && v !== null` (arrays are objects in JS). -/
def JVal.jsObjectLike : JVal → Bool
  | .jobj _ => true
  | .jarr _ => true
  | _ => false

/-- `typeof v[k] === 'string'` — field present with a string value. -/
def JVal.strField : JVal → String → Option String
  | .jobj fs, k =>
    match fs.lookup k with
    | some (.jstr s) => some s
    | _ => none
  | _, _ => none

/- ## Calendar batch create (`src/app/api/auth/[...nextauth]/route.ts`,
concatenated calendar-create document, lines 124-266) -/

/-- Type guard `isGoogleDate`: an object whose `dateTime` or `date` field is
a string. -/
def isGoogleDate (v : JVal) : Bool :=
  (v.strField "dateTime").isSome || (v.strField "date").isSome

/-- Type guard `isCalendarEventInput`: string `summary` plus Google dates
`start` and `end`. -/
def isCalendarEventInput (v : JVal) : Bool :=
  v.jsObjectLike &&
  !(match v with | .jarr _ => true | _ => false) &&
  (v.strField "summary").isSome &&
  (match v.getField "start" with | some s => isGoogleDate s | none => false) &&
  (match v.getField "end" with | some e => isGoogleDate e | none => false)

/-- Type guard `isEventArray`. -/
def isEventArray (v : JVal) : Bool :=
  match v with
  | .jarr xs => xs.all isCalendarEventInput
  | _ => false

/-- `event.summary` of a validated event. -/
def eventSummary (v : JVal) : String := (v.strField "summary").getD ""

/-- Outcome of one create call to the calendar provider: an ok response with
a body, a non-ok response with a body, or a rejected `fetch`. -/
inductive ProviderOutcome where
  | ok (data : JVal)
  | errResp (data : JVal)
  | networkError

/-- `(data as { error?: { message?: string } })?.error?.message ||
"Unknown API Error"` — the `||` falls through on a missing or empty
message. -/
def apiErrorMessage (data : JVal) : String :=
  match data.getField "error" with
  | some err =>
    match err.strField "message" with
    | some m => if m == "" then "Unknown API Error" else m
    | none => "Unknown API Error"
  | none => "Unknown API Error"

/-- One per-item entry of the batch response. -/
structure CreateResult where
  summary : String
  status : String
  data : Option JVal := none
  error : Option String := none
  deriving Repr

/-- Body of one iteration of the create loop: the per-item result and the
`successCount` increment. -/
def createResultFor (e : JVal) (o : ProviderOutcome) : CreateResult × Nat :=
  match o with
  | .ok d => ({ summary := eventSummary e, status := "success", data := some d }, 1)
  | .errResp d =>
      ({ summary := eventSummary e, status := "error",
         error := some (apiErrorMessage d) }, 0)
  | .networkError =>
      ({ summary := eventSummary e, status := "error",
         error := some "Network or Server Error" }, 0)

/-- The sequential `for (const event of rawEvents)` loop: the i-th iteration
issues the i-th provider call; returns (per-item results, successCount,
number of provider calls). -/
def createLoop (provider : Nat → ProviderOutcome) :
    Nat → List JVal → List CreateResult × Nat × Nat
  | _, [] => ([], 0, 0)
  | i, e :: rest =>
    let r := createResultFor e (provider i)
    let rest2 := createLoop provider (i + 1) rest
    (r.1 :: rest2.1, r.2 + rest2.2.1, 1 + rest2.2.2)

/-- The server-side session as the route handlers see it (`session.user`
presence and `session.accessToken`). -/
structure ServerSession where
  user : Bool := true
  accessToken : Option String := none
  deriving Repr, DecidableEq

/-- Truthiness of `session.accessToken`. -/
def sessionTokenOk (s : ServerSession) : Bool :=
  match s.accessToken with
  | some t => !(t == "")
  | none => false

/-- Response of the batch-create route handler. -/
inductive BatchOutcome where
  | unauthorized
  | badRequest (msg : String)
  | okResult (success : Bool) (message : String) (results : List CreateResult)
  deriving Repr

/-- HTTP status of a batch-create response. -/
def BatchOutcome.statusCode : BatchOutcome → Nat
  | .unauthorized => 401
  | .badRequest _ => 400
  | .okResult _ _ _ => 200

def batchTooLargeMessage : String := "一度に登録できるイベントは20件までです"

/-- The batch-create `POST` handler: auth check, JSON parse, structure
guards, the 20-item cap, then the sequential create loop; the second
component counts calendar-provider create calls. -/
def batchCreatePOST (session : Option ServerSession) (rawBody : Option JVal)
    (provider : Nat → ProviderOutcome) : BatchOutcome × Nat :=
  match session with
  | none => (.unauthorized, 0)
  | some s =>
    if !s.user || !(sessionTokenOk s) then (.unauthorized, 0)
    else
      match rawBody with
      | none => (.badRequest "Invalid JSON format", 0)
      | some body =>
        if !(body.jsObjectLike && body.hasField "events") then
          (.badRequest "Missing 'events' field", 0)
        else
          match body.getField "events" with
          | some (.jarr events) =>
            if !(events.all isCalendarEventInput) then
              (.badRequest "Invalid event data structure", 0)
            else if events.length > 20 then
              (.badRequest batchTooLargeMessage, 0)
            else
              let out := createLoop provider 0 events
              (.okResult (out.2.1 > 0)
                (toString events.length ++ "件中 " ++ toString out.2.1
                  ++ "件 の登録に成功しました")
                out.1, out.2.2)
          | _ => (.badRequest "Invalid event data structure", 0)

/-- A per-item result counts as a success exactly when its status is the
string `success`. -/
def isSuccessResult (r : CreateResult) : Bool := r.status == "success"

lemma createLoop_length (provider : Nat → ProviderOutcome) :
    ∀ (evs : List JVal) (i : Nat), ((createLoop provider i evs).1).length = evs.length := by
  intro evs
  induction evs with
  | nil => intro i; rfl
  | cons e rest ih =>
    intro i
    unfold createLoop
    simp [ih (i + 1)]

lemma createLoop_getElem (provider : Nat → ProviderOutcome) :
    ∀ (evs : List JVal) (i j : Nat),
      ((createLoop provider i evs).1)[j]? =
        evs[j]?.map (fun e => (createResultFor e (provider (i + j))).1) := by
  intro evs
  induction evs with
  | nil => intro i j; rfl
  | cons e rest ih =>
    intro i j
    cases j with
    | zero => simp [createLoop]
    | succ j =>
      unfold createLoop
      simp only [List.getElem?_cons_succ]
      rw [ih (i + 1) j]
      have harith : i + 1 + j = i + (j + 1) := by omega
      rw [harith]

lemma createLoop_successCount (provider : Nat → ProviderOutcome) :
    ∀ (evs : List JVal) (i : Nat),
      (createLoop provider i evs).2.1 =
        (((createLoop provider i evs).1).filter isSuccessResult).length := by
  intro evs
  induction evs with
  | nil => intro i; rfl
  | cons e rest ih =>
    intro i
    unfold createLoop
    simp only
    rw [ih (i + 1)]
    cases h : provider i with
    | ok d =>
      simp [createResultFor, isSuccessResult, List.filter]
      omega
    | errResp d => simp [createResultFor, isSuccessResult, List.filter]
    | networkError => simp [createResultFor, isSuccessResult, List.filter]

lemma createLoop_calls (provider : Nat → ProviderOutcome) :
    ∀ (evs : List JVal) (i : Nat), (createLoop provider i evs).2.2 = evs.length := by
  intro evs
  induction evs with
  | nil => intro i; rfl
  | cons e rest ih =>
    intro i
    unfold createLoop
    simp only [List.length_cons]
    rw [ih (i + 1)]
    omega

/-- C3: for a validated batch of N events, the handler issues exactly one
provider call per event; the response holds exactly N per-item results in
input order, the i-th recording the i-th call's outcome independently (a
failure never aborts the rest); the success count equals the number of
per-item successes; and the overall `success` flag is true iff that count
is positive. -/
theorem c3_batch_per_item (s : ServerSession) (events : List JVal)
    (provider : Nat → ProviderOutcome)
    (hu : s.user = true) (ht : sessionTokenOk s = true)
    (hv : events.all isCalendarEventInput = true) (hlen : events.length ≤ 20) :
    ∃ succ msg results,
      batchCreatePOST (some s) (some (.jobj [("events", .jarr events)])) provider
        = (.okResult succ msg results, events.length) ∧
      results.length = events.length ∧
      (∀ j e, events[j]? = some e →
        ∃ r, results[j]? = some r ∧
          r.summary = eventSummary e ∧
          ((∃ d, provider j = .ok d) →
            r.status = "success" ∧ r.error = none) ∧
          (provider j = .networkError →
            r.status = "error" ∧ r.error = some "Network or Server Error") ∧
          (∀ d, provider j = .errResp d →
            r.status = "error" ∧ r.error = some (apiErrorMessage d))) ∧
      succ = decide (0 < (results.filter isSuccessResult).length) := by
  have hbody : batchCreatePOST (some s) (some (.jobj [("events", .jarr events)])) provider
      = (.okResult ((createLoop provider 0 events).2.1 > 0)
          (toString events.length ++ "件中 " ++ toString (createLoop provider 0 events).2.1
            ++ "件 の登録に成功しました")
          (createLoop provider 0 events).1, (createLoop provider 0 events).2.2) := by
    unfold batchCreatePOST
    have hnl : ¬ (events.length > 20) := by omega
    simp [hu, ht, JVal.jsObjectLike, JVal.hasField, JVal.getField, List.lookup, hv, hnl]
  refine ⟨decide ((createLoop provider 0 events).2.1 > 0),
    toString events.length ++ "件中 " ++ toString (createLoop provider 0 events).2.1
      ++ "件 の登録に成功しました",
    (createLoop provider 0 events).1, ?_, ?_, ?_, ?_⟩
  · rw [hbody, createLoop_calls]
  · exact createLoop_length provider events 0
  · intro j e hje
    refine ⟨(createResultFor e (provider j)).1, ?_, ?_, ?_, ?_, ?_⟩
    · rw [createLoop_getElem provider events 0 j, hje]
      simp
    · cases h : provider j <;> simp [createResultFor, eventSummary]
    · rintro ⟨d, hd⟩
      rw [hd]
      exact ⟨rfl, rfl⟩
    · intro hd
      rw [hd]
      exact ⟨rfl, rfl⟩
    · intro d hd
      rw [hd]
      exact ⟨rfl, rfl⟩
  · rw [createLoop_successCount provider events 0]


/-- A structurally valid calendar event input. -/
def sampleEvent : JVal :=
  .jobj [("summary", .jstr "task"),
         ("start", .jobj [("dateTime", .jstr "2026-10-12T10:00:00+09:00")]),
         ("end", .jobj [("dateTime", .jstr "2026-10-12T11:00:00+09:00")])]

/-- An authenticated server session. -/
def sampleSession : ServerSession := { user := true, accessToken := some "AT" }

def sampleBatch10 : List JVal := List.replicate 10 sampleEvent

def sampleBatch20 : List JVal := List.replicate 20 sampleEvent

def sampleBatch21 : List JVal := List.replicate 21 sampleEvent

/-- A provider behaviour failing the first three creates and accepting the
rest. -/
def sampleProvider3Fail (i : Nat) : ProviderOutcome :=
  if i < 3 then .errResp (.jobj [("error", .jobj [("message", .jstr "quota")])])
  else .ok (.jobj [("id", .jstr "evt")])

/-- The `success` flag of an ok batch response. -/
def batchSuccessFlag : BatchOutcome → Option Bool
  | .okResult s _ _ => some s
  | _ => none

/-- The number of per-item successes of an ok batch response. -/
def batchSuccessCount : BatchOutcome → Option Nat
  | .okResult _ _ rs => some ((rs.filter isSuccessResult).length)
  | _ => none

/-- The number of per-item results of an ok batch response. -/
def batchResultsLength : BatchOutcome → Option Nat
  | .okResult _ _ rs => some rs.length
  | _ => none

/-- Closed witness for `c3_batch_per_item`: 10 events of which the provider
fails 3 give `successCount = 7`, overall `success = true`, and 10 per-item
results. -/
theorem c3_batch_per_item_witness :
    sampleSession.user = true ∧
    sessionTokenOk sampleSession = true ∧
    sampleBatch10.all isCalendarEventInput = true ∧
    sampleBatch10.length ≤ 20 ∧
    (∃ succ msg results,
      batchCreatePOST (some sampleSession) (some (.jobj [("events", .jarr sampleBatch10)]))
          sampleProvider3Fail
        = (.okResult succ msg results, sampleBatch10.length) ∧
      results.length = sampleBatch10.length ∧
      (∀ j e, sampleBatch10[j]? = some e →
        ∃ r, results[j]? = some r ∧
          r.summary = eventSummary e ∧
          ((∃ d, sampleProvider3Fail j = .ok d) →
            r.status = "success" ∧ r.error = none) ∧
          (sampleProvider3Fail j = .networkError →
            r.status = "error" ∧ r.error = some "Network or Server Error") ∧
          (∀ d, sampleProvider3Fail j = .errResp d →
            r.status = "error" ∧ r.error = some (apiErrorMessage d))) ∧
      succ = decide (0 < (results.filter isSuccessResult).length)) ∧
    batchSuccessCount (batchCreatePOST (some sampleSession)
        (some (.jobj [("events", .jarr sampleBatch10)])) sampleProvider3Fail).1
      = some 7 ∧
    batchSuccessFlag (batchCreatePOST (some sampleSession)
        (some (.jobj [("events", .jarr sampleBatch10)])) sampleProvider3Fail).1
      = some true ∧
    batchResultsLength (batchCreatePOST (some sampleSession)
        (some (.jobj [("events", .jarr sampleBatch10)])) sampleProvider3Fail).1
      = some 10 :=
  ⟨rfl, rfl, rfl, by decide,
    c3_batch_per_item sampleSession sampleBatch10 sampleProvider3Fail rfl rfl rfl
      (by decide),
    rfl, rfl, rfl⟩

/-- C5: for an authenticated request whose events are structurally valid,
the handler rejects with the batch-too-large error exactly when the list
has more than 20 items; a too-large batch is rejected before any provider
call, and a batch of at most 20 items reaches the create loop and yields an
ok aggregate response. -/
theorem c5_batch_cap (s : ServerSession) (events : List JVal)
    (provider : Nat → ProviderOutcome)
    (hu : s.user = true) (ht : sessionTokenOk s = true)
    (hv : events.all isCalendarEventInput = true) :
    ((batchCreatePOST (some s) (some (.jobj [("events", .jarr events)])) provider).1
        = .badRequest batchTooLargeMessage ↔ 20 < events.length) ∧
    (20 < events.length →
      batchCreatePOST (some s) (some (.jobj [("events", .jarr events)])) provider
        = (.badRequest batchTooLargeMessage, 0)) ∧
    (events.length ≤ 20 →
      ∃ succ msg results,
        (batchCreatePOST (some s) (some (.jobj [("events", .jarr events)])) provider).1
          = .okResult succ msg results) := by
  by_cases hbig : 20 < events.length
  · have heq : batchCreatePOST (some s) (some (.jobj [("events", .jarr events)])) provider
        = (.badRequest batchTooLargeMessage, 0) := by
      unfold batchCreatePOST
      have hgt : events.length > 20 := hbig
      simp [hu, ht, JVal.jsObjectLike, JVal.hasField, JVal.getField, List.lookup, hv, hgt]
    refine ⟨iff_of_true (by rw [heq]) hbig, fun _ => heq, fun hle => absurd hbig (by omega)⟩
  · have heq : batchCreatePOST (some s) (some (.jobj [("events", .jarr events)])) provider
        = (.okResult ((createLoop provider 0 events).2.1 > 0)
            (toString events.length ++ "件中 " ++ toString (createLoop provider 0 events).2.1
              ++ "件 の登録に成功しました")
            (createLoop provider 0 events).1, (createLoop provider 0 events).2.2) := by
      unfold batchCreatePOST
      simp [hu, ht, JVal.jsObjectLike, JVal.hasField, JVal.getField, List.lookup, hv, hbig]
    refine ⟨iff_of_false (by rw [heq]; simp) hbig, fun h => absurd h hbig, fun _ => ?_⟩
    exact ⟨_, _, _, by rw [heq]⟩

/-- Closed witness for `c5_batch_cap`: 21 structurally valid events are
rejected with zero provider calls; 20 pass validation. -/
theorem c5_batch_cap_witness :
    sampleSession.user = true ∧
    sessionTokenOk sampleSession = true ∧
    sampleBatch21.all isCalendarEventInput = true ∧
    sampleBatch20.all isCalendarEventInput = true ∧
    (((batchCreatePOST (some sampleSession) (some (.jobj [("events", .jarr sampleBatch21)]))
          sampleProvider3Fail).1
        = .badRequest batchTooLargeMessage ↔ 20 < sampleBatch21.length) ∧
      (20 < sampleBatch21.length →
        batchCreatePOST (some sampleSession) (some (.jobj [("events", .jarr sampleBatch21)]))
            sampleProvider3Fail
          = (.badRequest batchTooLargeMessage, 0)) ∧
      (sampleBatch21.length ≤ 20 →
        ∃ succ msg results,
          (batchCreatePOST (some sampleSession)
              (some (.jobj [("events", .jarr sampleBatch21)])) sampleProvider3Fail).1
            = .okResult succ msg results)) ∧
    (sampleBatch20.length ≤ 20 →
      ∃ succ msg results,
        (batchCreatePOST (some sampleSession) (some (.jobj [("events", .jarr sampleBatch20)]))
            sampleProvider3Fail).1
          = .okResult succ msg results) :=
  ⟨rfl, rfl, rfl, rfl,
    c5_batch_cap sampleSession sampleBatch21 sampleProvider3Fail rfl rfl rfl,
    (c5_batch_cap sampleSession sampleBatch20 sampleProvider3Fail rfl rfl rfl).2.2⟩


/- ## Chat route (`src/unnamed/part_003`, the chat `POST` handler with type
guards, history truncation and input wrapping; `src/app/api/chat/route.ts`
is an earlier revision of the same route without truncation) -/

/-- JS `String.prototype.trim`: strip leading and trailing whitespace
(structural over the character list, so that proofs can evaluate it). -/
def jsTrim (s : String) : String :=
  String.mk (((s.toList.dropWhile Char.isWhitespace).reverse.dropWhile
    Char.isWhitespace).reverse)

/-- `pre` is an initial run of `s`. -/
def startsWithChars : List Char → List Char → Bool
  | [], _ => true
  | _ :: _, [] => false
  | a :: as, b :: bs => a == b && startsWithChars as bs

/-- Some suffix of `s` starts with `sub`. -/
def containsChars (sub : List Char) : List Char → Bool
  | [] => sub.isEmpty
  | c :: rest => startsWithChars sub (c :: rest) || containsChars sub rest

/-- A chat turn as the UI sends it. -/
structure ChatMessage where
  role : String
  content : String
  deriving Repr, DecidableEq

/-- Type guard `isMessage`: role is the string `user` or `assistant` and
content is a string. -/
def isMessageJ (v : JVal) : Bool :=
  (match v.getField "role" with
   | some (.jstr r) => r == "user" || r == "assistant"
   | _ => false) &&
  (v.strField "content").isSome

/-- Type guard `isMessageArray`. -/
def isMessageArrayJ (v : JVal) : Bool :=
  match v with
  | .jarr xs => xs.all isMessageJ
  | _ => false

/-- Type guard `isScheduleItemArray`: an array of objects carrying at least
a `summary` key. -/
def isScheduleItemArrayJ (v : JVal) : Bool :=
  match v with
  | .jarr xs => xs.all (fun it =>
      match it with
      | .jobj _ => it.hasField "summary"
      | _ => false)
  | _ => false

/-- Reading a validated history element into a `ChatMessage`. -/
def toChatMessage (v : JVal) : ChatMessage :=
  { role := (v.strField "role").getD ""
    content := (v.strField "content").getD "" }

/-- The type-safe body the handler assembles after validation. -/
structure SafeBody where
  message : String
  history : List ChatMessage
  schedule : Option JVal := none
  deriving Repr

/-- The parse-and-validate pipeline of the chat `POST` handler, in source
order: JSON parse, object check, `message` string check, `history` guard,
permissive `schedule` guard (never failing), then the emptiness and length
constraints. -/
def chatValidate (rawBody : Option JVal) : Except String SafeBody :=
  match rawBody with
  | none => .error "Invalid JSON format"
  | some body =>
    if !body.jsObjectLike then .error "Invalid request body"
    else
      match body.strField "message" with
      | none => .error "Message is required and must be a string"
      | some msg =>
        match body.getField "history" with
        | none => .error "History must be an array of messages"
        | some h =>
          if !(isMessageArrayJ h) then .error "History must be an array of messages"
          else
            let hist := (match h with | .jarr xs => xs | _ => []).map toChatMessage
            let sched :=
              if body.hasField "schedule" &&
                  isScheduleItemArrayJ ((body.getField "schedule").getD .jnull)
              then body.getField "schedule" else none
            if jsTrim msg == "" then .error "メッセージが空です"
            else if msg.length > 2000 then
              .error "メッセージは2000文字以内にしてください"
            else .ok { message := msg, history := hist, schedule := sched }

/-- One turn of the model request (`{role, parts: [{text}]}` with a single
part). -/
structure Turn where
  role : String
  text : String
  deriving Repr, DecidableEq

/-- The role map applied to history turns: `assistant` becomes `model`,
anything else stays `user`. -/
def mapTurn (m : ChatMessage) : Turn :=
  { role := if m.role == "assistant" then "model" else "user", text := m.content }

/-- The filter `msg.content && msg.content.trim() !== ""`. -/
def keepMessage (m : ChatMessage) : Bool :=
  !(m.content == "") && !(jsTrim m.content == "")

def MAX_HISTORY_LENGTH : Nat := 10

/-- `recentHistory`: `slice(-10)`, drop empty-content turns, map roles. -/
def recentHistory (history : List ChatMessage) : List Turn :=
  ((history.drop (history.length - MAX_HISTORY_LENGTH)).filter keepMessage).map mapTurn

/-- The system-prompt turn text handed to `startChat`. -/
def systemTurnText (systemPrompt : String) : String :=
  systemPrompt ++ "\n\nこのペルソナになりきって対話を開始してください。"

/-- The prompt-injection wrapper around the user message. -/
def wrapUserInput (message : String) : String :=
  "<UserInput>" ++ message ++ "</UserInput>"

/-- The full turn sequence of one model call: the persona turn, the cleaned
recent history, then the wrapped user message sent via `sendMessage`. -/
def composedRequest (systemPrompt : String) (history : List ChatMessage)
    (message : String) : List Turn :=
  ({ role := "user", text := systemTurnText systemPrompt } :: recentHistory history)
    ++ [{ role := "user", text := wrapUserInput message }]

/-- A thrown error as the `catch` block sees it: a JS object with optional
`status` and `message` properties, or a non-object value. -/
inductive ThrownError where
  | objErr (status : Option Int) (message : Option String)
  | nonObjErr
  deriving Repr, DecidableEq

/-- Type guard `isGenAIError`: an object with a `status` or `message`
property. -/
def isGenAIError : ThrownError → Bool
  | .objErr st m => st.isSome || m.isSome
  | .nonObjErr => false

/-- JS `s.includes(sub)`. -/
def stringContains (s sub : String) : Bool := containsChars sub.toList s.toList

def rateLimitMessage : String :=
  "現在AIへのアクセスが混み合っています。しばらく時間を置いてから再度お試しください。"

def genericErrorMessage : String := "サーバー内部でエラーが発生しました。"

/-- The `catch` block of the chat handler: HTTP status and body message. -/
def genAIErrorResponse (e : ThrownError) : Nat × String :=
  match e with
  | .objErr st m =>
    if (st.isSome || m.isSome) &&
        (st == some 429 ||
          (match m with | some s => stringContains s "429" | none => false))
    then (429, rateLimitMessage)
    else (500, genericErrorMessage)
  | .nonObjErr => (500, genericErrorMessage)

/-- Response of the chat route handler. -/
inductive ChatOutcome where
  | unauthorized
  | badRequest (msg : String)
  | reply (text : String)
  | rateLimited (msg : String)
  | serverError (msg : String)
  deriving Repr, DecidableEq

/-- HTTP status of a chat response. -/
def ChatOutcome.statusCode : ChatOutcome → Nat
  | .unauthorized => 401
  | .badRequest _ => 400
  | .reply _ => 200
  | .rateLimited _ => 429
  | .serverError _ => 500

/-- The chat `POST` handler: auth check, validation, then the model call
(`modelResult` is the provider's behaviour); the second component counts
model-provider calls. -/
def chatPOST (session : Option ServerSession) (rawBody : Option JVal)
    (modelResult : Except ThrownError String) : ChatOutcome × Nat :=
  match session with
  | none => (.unauthorized, 0)
  | some _ =>
    match chatValidate rawBody with
    | .error e => (.badRequest e, 0)
    | .ok _ =>
      match modelResult with
      | .ok text => (.reply text, 1)
      | .error e =>
        (if (genAIErrorResponse e).1 == 429
         then .rateLimited (genAIErrorResponse e).2
         else .serverError (genAIErrorResponse e).2, 1)

/- ## Calendar read (`src/unnamed/part_000`) -/

/-- The query string the handler builds on the provider's events collection. -/
def calendarListQuery (timeMin : String) : List (String × String) :=
  [("timeMin", timeMin), ("maxResults", "10"), ("singleEvents", "true"),
   ("orderBy", "startTime")]

/-- Options of the list `fetch`: only the bearer header is set — no cache
directive appears in the call. -/
structure FetchOptions where
  authorization : String
  cacheMode : Option String := none
  deriving Repr, DecidableEq

def calendarListFetchOptions (accessToken : String) : FetchOptions :=
  { authorization := "Bearer " ++ accessToken }

/-- The provider's response to the list request: an ok response with a
body, or a non-ok response with its HTTP status and body. -/
inductive ListResponse where
  | ok (data : JVal)
  | errResp (status : Nat) (data : JVal)

/-- Response of the calendar read handler. -/
inductive GetOutcome where
  | unauthorized
  | okItems (items : Option JVal)
  | internalError
  deriving Repr

/-- HTTP status of a calendar read response. -/
def GetOutcome.statusCode : GetOutcome → Nat
  | .unauthorized => 401
  | .okItems _ => 200
  | .internalError => 500

/-- The calendar read `GET` handler: auth check, then the provider fetch;
any non-ok response is thrown and caught as a 500.  The second component
counts calendar-provider calls. -/
def calendarGET (session : Option ServerSession) (resp : ListResponse) :
    GetOutcome × Nat :=
  match session with
  | none => (.unauthorized, 0)
  | some s =>
    if !(sessionTokenOk s) then (.unauthorized, 0)
    else
      match resp with
      | .ok data => (.okItems (data.getField "items"), 1)
      | .errResp _ _ => (.internalError, 1)


/- ## Claim C4: the history window of the composed model request -/

/-- Spec-side rendering of the history window claim: take the last 10 turns
of the input. -/
def specLastTen (xs : List ChatMessage) : List ChatMessage :=
  (xs.reverse.take 10).reverse

/-- Spec-side role map: `assistant` becomes the model API role `model`,
`user` stays `user`. -/
def specRoleMap (r : String) : String := if r == "assistant" then "model" else "user"

/-- Spec-side rendering of the claimed history portion: last 10 turns,
whitespace-only turns removed, order preserved, roles mapped. -/
def specHistoryWindow (history : List ChatMessage) : List Turn :=
  ((specLastTen history).filter (fun m => !(jsTrim m.content == ""))).map
    (fun m => { role := specRoleMap m.role, text := m.content })

lemma specLastTen_eq (xs : List ChatMessage) :
    specLastTen xs = xs.drop (xs.length - 10) := by
  unfold specLastTen
  rw [← List.rtake_eq_reverse_take_reverse]
  rfl

lemma keepMessage_eq_trim (m : ChatMessage) :
    keepMessage m = !(jsTrim m.content == "") := by
  unfold keepMessage
  by_cases hc : m.content = ""
  · rw [hc]
    decide
  · have hb : (m.content == "") = false := beq_eq_false_iff_ne.mpr hc
    rw [hb]
    simp

/-- C4: the history portion of the composed model request equals the last
10 turns of the caller-supplied history with whitespace-only turns removed,
order preserved and `assistant` mapped to `model` (`user` kept); the full
request is the persona turn, then that window, then the wrapped new user
message; and the window never exceeds 10 turns. -/
theorem c4_history_window (systemPrompt : String) (history : List ChatMessage)
    (message : String) :
    recentHistory history = specHistoryWindow history ∧
    composedRequest systemPrompt history message =
      ({ role := "user", text := systemTurnText systemPrompt }
          :: specHistoryWindow history)
        ++ [{ role := "user", text := wrapUserInput message }] ∧
    (specHistoryWindow history).length ≤ 10 := by
  have hmap : mapTurn =
      (fun m => ({ role := specRoleMap m.role, text := m.content } : Turn)) := by
    funext m
    unfold mapTurn specRoleMap
    rfl
  have hwin : recentHistory history = specHistoryWindow history := by
    unfold recentHistory specHistoryWindow MAX_HISTORY_LENGTH
    rw [specLastTen_eq, hmap]
    congr 1
    apply List.filter_congr
    intro m _
    exact keepMessage_eq_trim m
  refine ⟨hwin, ?_, ?_⟩
  · unfold composedRequest
    rw [hwin]
  · have h1 : (specLastTen history).length ≤ 10 := by
      unfold specLastTen
      rw [List.length_reverse]
      exact List.length_take_le _ _
    unfold specHistoryWindow
    rw [List.length_map]
    exact le_trans (List.length_filter_le _ _) h1

/- ## Claim C7: order of the chat validation rules -/

/-- The error branch of a validation result. -/
def errOf : Except String SafeBody → Option String
  | .error e => some e
  | .ok _ => none

/-- A chat body whose `message` is empty after trimming AND whose `history`
is invalid: the claimed order would report the empty message first. -/
def c7Body : Option JVal := some (.jobj [("message", .jstr ""), ("history", .jnum 0)])

/-- C7 counterexample: on a payload with an empty message and an invalid
history the validator reports the invalid-history error, not the
empty-message error, refuting the claimed (b)-before-(d) ordering. -/
theorem c7_order_counterexample :
    errOf (chatValidate c7Body) = some "History must be an array of messages" ∧
    "History must be an array of messages" ≠ "メッセージが空です" ∧
    jsTrim "" = "" :=
  ⟨rfl, by decide, by decide⟩

/-- C7 (amended): the rules are applied in source order — (a) unparseable
payload fails as malformed JSON; a non-object payload fails next; a missing
or non-string `message` fails next; then an invalid `history` fails; only
then an empty-after-trim message, and then a message longer than 2000
characters; a structurally fine request passes (length exactly 2000
included) and a malformed optional `schedule` is silently dropped, never
failing the request. -/
theorem c7_amended_order :
    chatValidate none = .error "Invalid JSON format" ∧
    (∀ body : JVal, body.jsObjectLike = false →
      chatValidate (some body) = .error "Invalid request body") ∧
    (∀ body : JVal, body.jsObjectLike = true → body.strField "message" = none →
      chatValidate (some body) = .error "Message is required and must be a string") ∧
    (∀ (body : JVal) (msg : String), body.jsObjectLike = true →
      body.strField "message" = some msg →
      isMessageArrayJ ((body.getField "history").getD .jnull) = false →
      chatValidate (some body) = .error "History must be an array of messages") ∧
    (∀ (body : JVal) (msg : String) (h : JVal), body.jsObjectLike = true →
      body.strField "message" = some msg →
      body.getField "history" = some h → isMessageArrayJ h = true →
      jsTrim msg = "" →
      chatValidate (some body) = .error "メッセージが空です") ∧
    (∀ (body : JVal) (msg : String) (h : JVal), body.jsObjectLike = true →
      body.strField "message" = some msg →
      body.getField "history" = some h → isMessageArrayJ h = true →
      jsTrim msg ≠ "" → 2000 < msg.length →
      chatValidate (some body) = .error "メッセージは2000文字以内にしてください") ∧
    (∀ (body : JVal) (msg : String) (h : JVal), body.jsObjectLike = true →
      body.strField "message" = some msg →
      body.getField "history" = some h → isMessageArrayJ h = true →
      jsTrim msg ≠ "" → msg.length ≤ 2000 →
      ∃ sb, chatValidate (some body) = .ok sb ∧ sb.message = msg ∧
        ((body.hasField "schedule" &&
            isScheduleItemArrayJ ((body.getField "schedule").getD .jnull)) = false →
          sb.schedule = none)) := by
  refine ⟨rfl, ?_, ?_, ?_, ?_, ?_, ?_⟩
  · intro body hobj
    unfold chatValidate
    simp [hobj]
  · intro body hobj hmsg
    unfold chatValidate
    simp [hobj, hmsg]
  · intro body msg hobj hmsg hhist
    unfold chatValidate
    cases hh : body.getField "history" with
    | none => simp [hobj, hmsg, hh]
    | some h =>
      rw [hh] at hhist
      simp only [Option.getD_some] at hhist
      simp [hobj, hmsg, hh, hhist]
  · intro body msg h hobj hmsg hh hma htrim
    unfold chatValidate
    simp [hobj, hmsg, hh, hma, htrim]
  · intro body msg h hobj hmsg hh hma htrim hlen
    unfold chatValidate
    have htb : (jsTrim msg == "") = false := beq_eq_false_iff_ne.mpr htrim
    simp [hobj, hmsg, hh, hma, htb, hlen]
  · intro body msg h hobj hmsg hh hma htrim hlen
    have htb : (jsTrim msg == "") = false := beq_eq_false_iff_ne.mpr htrim
    have hnl : ¬ (msg.length > 2000) := by omega
    have heq : chatValidate (some body) = .ok
        { message := msg
          history := (match h with | .jarr xs => xs | _ => []).map toChatMessage
          schedule :=
            if body.hasField "schedule" &&
                isScheduleItemArrayJ ((body.getField "schedule").getD .jnull)
            then body.getField "schedule" else none } := by
      unfold chatValidate
      simp [hobj, hmsg, hh, hma, htb, hnl]
    refine ⟨_, heq, rfl, ?_⟩
    intro hsched
    simp [hsched]


def chars2000 : String := String.mk (List.replicate 2000 'a')

def chars2001 : String := String.mk (List.replicate 2001 'a')

lemma dropWhile_replicate_a (m : Nat) :
    (List.replicate m 'a').dropWhile Char.isWhitespace = List.replicate m 'a' := by
  cases m with
  | zero => rfl
  | succ k =>
    rw [List.replicate_succ, List.dropWhile_cons]
    have hw : Char.isWhitespace 'a' = false := by decide
    simp [hw]

lemma jsTrim_replicate_a (n : Nat) :
    jsTrim (String.mk (List.replicate n 'a')) = String.mk (List.replicate n 'a') := by
  show String.mk ((((List.replicate n 'a').dropWhile Char.isWhitespace).reverse.dropWhile
      Char.isWhitespace).reverse) = _
  rw [dropWhile_replicate_a, List.reverse_replicate, dropWhile_replicate_a,
    List.reverse_replicate]

lemma replicate_a_ne_empty (n : Nat) (h : 0 < n) :
    String.mk (List.replicate n 'a') ≠ "" := by
  intro he
  have h2 : List.replicate n 'a' = ([] : List Char) := congrArg String.data he
  rw [List.replicate_eq_nil_iff] at h2
  omega

lemma length_replicate_a (n : Nat) :
    (String.mk (List.replicate n 'a')).length = n := by
  show (List.replicate n 'a').length = n
  simp

/-- Closed witness for `c7_amended_order`, exercising each rule at a
concrete payload; a 2000-character message passes and a malformed
`schedule` is dropped without failing. -/
theorem c7_amended_order_witness :
    chatValidate none = .error "Invalid JSON format" ∧
    chatValidate (some (.jnum 5)) = .error "Invalid request body" ∧
    chatValidate (some (.jobj [("history", .jarr [])]))
      = .error "Message is required and must be a string" ∧
    chatValidate (some (.jobj [("message", .jstr "hi")]))
      = .error "History must be an array of messages" ∧
    chatValidate (some (.jobj [("message", .jstr "  "), ("history", .jarr [])]))
      = .error "メッセージが空です" ∧
    chatValidate (some (.jobj [("message", .jstr chars2001), ("history", .jarr [])]))
      = .error "メッセージは2000文字以内にしてください" ∧
    (∃ sb, chatValidate (some (.jobj [("message", .jstr chars2000),
          ("history", .jarr []), ("schedule", .jnum 3)]))
        = .ok sb ∧ sb.message = chars2000 ∧ sb.schedule = none) := by
  have h := c7_amended_order
  refine ⟨h.1, h.2.1 _ rfl, h.2.2.1 _ rfl rfl, h.2.2.2.1 _ "hi" rfl rfl rfl,
    h.2.2.2.2.1 _ "  " (.jarr []) rfl rfl rfl rfl (by decide),
    h.2.2.2.2.2.1 _ chars2001 (.jarr []) rfl rfl rfl rfl
      (by unfold chars2001; rw [jsTrim_replicate_a]; exact replicate_a_ne_empty 2001 (by omega))
      (by unfold chars2001; rw [length_replicate_a]; omega),
    ?_⟩
  obtain ⟨sb, hsb, hm, hs⟩ :=
    h.2.2.2.2.2.2 (.jobj [("message", .jstr chars2000), ("history", .jarr []),
        ("schedule", .jnum 3)]) chars2000 (.jarr []) rfl rfl rfl rfl
      (by unfold chars2000; rw [jsTrim_replicate_a]; exact replicate_a_ne_empty 2000 (by omega))
      (by unfold chars2000; rw [length_replicate_a])
  exact ⟨sb, hsb, hm, hs rfl⟩

/- ## Claim C9: classification of model-provider failures -/

/-- The claim's rate-limit condition: the thrown error carries status 429
or a message containing the substring 429. -/
def carries429 : ThrownError → Bool
  | .objErr st m =>
      st == some 429 ||
        (match m with | some s => stringContains s "429" | none => false)
  | .nonObjErr => false

lemma genAIErrorResponse_eq (e : ThrownError) :
    genAIErrorResponse e =
      if carries429 e then (429, rateLimitMessage)
      else (500, genericErrorMessage) := by
  cases e with
  | nonObjErr => rfl
  | objErr st m => cases st <;> cases m <;> simp [genAIErrorResponse, carries429]

/-- C9: when the model call of a validated chat request fails, an error
carrying status 429 or a message containing 429 yields HTTP 429 with the
fixed retry-later body; every other failure yields HTTP 500 with the fixed
generic body; in both cases the body is one of those two constants, never
the provider's payload. -/
theorem c9_error_classification (s : ServerSession) (rawBody : Option JVal)
    (sb : SafeBody) (e : ThrownError)
    (hval : chatValidate rawBody = .ok sb) :
    (carries429 e = true →
      (chatPOST (some s) rawBody (.error e)).1 = .rateLimited rateLimitMessage ∧
      ChatOutcome.statusCode (chatPOST (some s) rawBody (.error e)).1 = 429) ∧
    (carries429 e = false →
      (chatPOST (some s) rawBody (.error e)).1 = .serverError genericErrorMessage ∧
      ChatOutcome.statusCode (chatPOST (some s) rawBody (.error e)).1 = 500) ∧
    ((chatPOST (some s) rawBody (.error e)).1 = .rateLimited rateLimitMessage ∨
      (chatPOST (some s) rawBody (.error e)).1 = .serverError genericErrorMessage) := by
  have hch : chatPOST (some s) rawBody (.error e) =
      (if (genAIErrorResponse e).1 == 429
        then .rateLimited (genAIErrorResponse e).2
        else .serverError (genAIErrorResponse e).2, 1) := by
    unfold chatPOST
    rw [hval]
  refine ⟨?_, ?_, ?_⟩
  · intro h429
    have hres : (chatPOST (some s) rawBody (.error e)).1 = .rateLimited rateLimitMessage := by
      rw [hch]
      simp [genAIErrorResponse_eq, h429]
    exact ⟨hres, by rw [hres]; rfl⟩
  · intro h429
    have hres : (chatPOST (some s) rawBody (.error e)).1
        = .serverError genericErrorMessage := by
      rw [hch]
      simp [genAIErrorResponse_eq, h429]
    exact ⟨hres, by rw [hres]; rfl⟩
  · cases h429 : carries429 e with
    | false =>
      right
      rw [hch]
      simp [genAIErrorResponse_eq, h429]
    | true =>
      left
      rw [hch]
      simp [genAIErrorResponse_eq, h429]

/-- A structurally valid chat body and the safe body it validates to. -/
def sampleChatBody : Option JVal :=
  some (.jobj [("message", .jstr "hi"), ("history", .jarr [])])

def sampleSafeBody : SafeBody := { message := "hi", history := [], schedule := none }

/-- Closed witness for `c9_error_classification` at a thrown object
carrying status 429. -/
theorem c9_error_classification_witness :
    chatValidate sampleChatBody = .ok sampleSafeBody ∧
    carries429 (.objErr (some 429) none) = true ∧
    carries429 (.objErr none (some "got error 429: quota")) = true ∧
    carries429 .nonObjErr = false ∧
    ((carries429 (.objErr (some 429) none) = true →
      (chatPOST (some sampleSession) sampleChatBody
          (.error (.objErr (some 429) none))).1 = .rateLimited rateLimitMessage ∧
      ChatOutcome.statusCode (chatPOST (some sampleSession) sampleChatBody
          (.error (.objErr (some 429) none))).1 = 429) ∧
    (carries429 (.objErr (some 429) none) = false →
      (chatPOST (some sampleSession) sampleChatBody
          (.error (.objErr (some 429) none))).1 = .serverError genericErrorMessage ∧
      ChatOutcome.statusCode (chatPOST (some sampleSession) sampleChatBody
          (.error (.objErr (some 429) none))).1 = 500) ∧
    ((chatPOST (some sampleSession) sampleChatBody
          (.error (.objErr (some 429) none))).1 = .rateLimited rateLimitMessage ∨
      (chatPOST (some sampleSession) sampleChatBody
          (.error (.objErr (some 429) none))).1 = .serverError genericErrorMessage)) :=
  ⟨rfl, rfl, by decide, rfl,
    c9_error_classification sampleSession sampleChatBody sampleSafeBody
      (.objErr (some 429) none) rfl⟩

/- ## Claim C6: the calendar read request -/

/-- C6 counterexample: a provider 401 is not passed through — the handler
returns a generic 500 — and the list fetch sets no cache directive. -/
theorem c6_passthrough_counterexample :
    (calendarGET (some sampleSession) (.errResp 401 (.jobj []))).1 = .internalError ∧
    GetOutcome.statusCode
      (calendarGET (some sampleSession) (.errResp 401 (.jobj []))).1 = 500 ∧
    (500 : Nat) ≠ 401 ∧
    (calendarListFetchOptions "AT").cacheMode = none :=
  ⟨rfl, rfl, by decide, rfl⟩

/-- C6 (amended): the authenticated read filters the provider query to
start time at least `timeMin`, expands recurring instances
(`singleEvents`), orders by start time and caps at 10 results; the fetch
carries no cache-disabling option; a successful response returns the items
collection; and every non-ok provider response — a 401 included — is
converted to a generic 500 failure rather than passed through. -/
theorem c6_calendar_read_amended (s : ServerSession) (timeMin : String)
    (ht : sessionTokenOk s = true) :
    calendarListQuery timeMin =
      [("timeMin", timeMin), ("maxResults", "10"), ("singleEvents", "true"),
       ("orderBy", "startTime")] ∧
    (∀ t, (calendarListFetchOptions t).cacheMode = none) ∧
    (∀ st data, calendarGET (some s) (.errResp st data) = (.internalError, 1) ∧
      GetOutcome.statusCode .internalError = 500) ∧
    (∀ data, calendarGET (some s) (.ok data) = (.okItems (data.getField "items"), 1)) := by
  refine ⟨rfl, fun t => rfl, ?_, ?_⟩
  · intro st data
    refine ⟨?_, rfl⟩
    unfold calendarGET
    simp [ht]
  · intro data
    unfold calendarGET
    simp [ht]

/-- Closed witness for `c6_calendar_read_amended` at the sample session. -/
theorem c6_calendar_read_amended_witness :
    sessionTokenOk sampleSession = true ∧
    (calendarListQuery "2026-10-12T00:00:00Z" =
      [("timeMin", "2026-10-12T00:00:00Z"), ("maxResults", "10"),
       ("singleEvents", "true"), ("orderBy", "startTime")] ∧
    (∀ t, (calendarListFetchOptions t).cacheMode = none) ∧
    (∀ st data, calendarGET (some sampleSession) (.errResp st data)
        = (.internalError, 1) ∧
      GetOutcome.statusCode .internalError = 500) ∧
    (∀ data, calendarGET (some sampleSession) (.ok data)
        = (.okItems (data.getField "items"), 1))) :=
  ⟨rfl, c6_calendar_read_amended sampleSession "2026-10-12T00:00:00Z" rfl⟩

/- ## Claim C8: unauthenticated requests -/

/-- C8: a request with no authenticated session gets HTTP 401 from each
protected handler — chat turn, calendar read, calendar batch write — with
zero calls to the model or calendar providers (and no credential exists to
refresh against the identity provider). -/
theorem c8_unauthenticated_no_calls :
    ∀ (rawBody : Option JVal) (modelResult : Except ThrownError String)
      (provider : Nat → ProviderOutcome) (resp : ListResponse),
      chatPOST none rawBody modelResult = (.unauthorized, 0) ∧
      ChatOutcome.statusCode (chatPOST none rawBody modelResult).1 = 401 ∧
      calendarGET none resp = (.unauthorized, 0) ∧
      GetOutcome.statusCode (calendarGET none resp).1 = 401 ∧
      batchCreatePOST none rawBody provider = (.unauthorized, 0) ∧
      BatchOutcome.statusCode (batchCreatePOST none rawBody provider).1 = 401 :=
  fun _ _ _ _ => ⟨rfl, rfl, rfl, rfl, rfl, rfl⟩

end AIPlanner
